import Mathlib

/-!
# Verification of the Assessment Session Controller (ssb-psych-frontend)

Shallow embedding of the session-controller logic of the repository:

* the Word Association Test page with progress persistence
  (`src/lib/supabaseClient.ts` + WAT page, `src/unnamed/part_000`) — a timed
  session with a 15-second per-word budget, sessionStorage persistence under
  key `wat-progress`, and a save-with-retries submission path;
* the Situation Reaction Test page (`src/src/app/srt/page.tsx`) — an untimed
  session with wall-clock bookkeeping, sessionStorage persistence under key
  `srt-progress`, and the same save-with-retries submission path;
* the legacy Word Association Test page (`src/src/app/wat/page.tsx`) — an
  older variant without persistence, whose start path differs.

React `useState` fields become record fields; each event handler becomes a
pure state-transition function.  The auto-save `useEffect` (which mirrors the
session state into sessionStorage whenever the test is running) is composed
after every transition that changes its dependencies, reflecting that React
runs the effect after the state update commits.  The asynchronous
save-with-retry chain (`saveSessionAndFinish`, which reschedules itself via a
2000 ms `setTimeout` while `retryCount < 2`) is modelled as a sequential
recursion on the number of retries left (`retriesLeft = 2 - retryCount`),
returning a trace of the attempts made; this is faithful because the host
scheduler runs the timer callbacks one at a time, after the `finally` block of
the previous attempt has cleared `isSaving`.  Presentation-only state
(`analysis`, `isAnalyzing`, input focus, the router) is outside the model.
-/

/-- Model of JavaScript `String.prototype.trim`: drop leading and trailing
whitespace.  (Defined over the character list so that closed instances
reduce inside the kernel.) -/
def jsTrim (s : String) : String :=
  ⟨((s.data.dropWhile Char.isWhitespace).reverse.dropWhile Char.isWhitespace).reverse⟩

/-- Model of the SRT word-count effect,
`currentResponse.trim().split(/\s+/).filter(word => word.length > 0).length`:
the number of maximal non-whitespace runs. -/
def jsWordCount (s : String) : Nat :=
  (((jsTrim s).data.splitOnP Char.isWhitespace).filter (fun w => w ≠ [])).length

/-- The test lifecycle states (`type TestState`); the SRT page uses only
`ready`, `running` and `finished`. -/
inductive TestState where
  | ready
  | running
  | paused
  | finished
deriving DecidableEq, Repr

/-- Outcome of one POST to the save endpoint: a 2xx answer carrying the
server-assigned session id, or any failure (network error, non-2xx,
missing auth session). -/
inductive SaveResult where
  | success (id : Nat)
  | failure
deriving DecidableEq, Repr

/-- A Submission Client: the outcome of the n-th save call issued. -/
def SaveClient := Nat → SaveResult

/-- One captured WAT response
(`{ word: string, response: string, timeSpent: number }`). -/
structure WatResponse where
  word : String
  response : String
  timeSpent : Nat
deriving DecidableEq, Repr

/-- The persisted WAT snapshot (`interface TestProgress`): note that it has
no field for the in-progress input buffer `currentResponse`. -/
structure TestProgress where
  currentWordIndex : Nat
  allResponses : List WatResponse
  timeLeft : Nat
  words : List String
deriving DecidableEq, Repr

/-- What sessionStorage may hold under the progress key: a value that parses
to a snapshot, or a string on which `JSON.parse` throws. -/
inductive StoredValue where
  | valid (p : TestProgress)
  | corrupt
deriving DecidableEq, Repr

/-- The WAT page state: one field per `useState` hook that the session
controller reads or writes, plus the sessionStorage cell `stored`
(`none` = no entry under the key `wat-progress`). -/
structure WatState where
  testState : TestState
  words : List String
  currentWordIndex : Nat
  timeLeft : Nat
  currentResponse : String
  allResponses : List WatResponse
  sessionId : Option Nat
  isSaving : Bool
  error : Option String
  stored : Option StoredValue
deriving DecidableEq, Repr

/-- The state of the WAT page at component mount: every `useState` initial
value, with whatever sessionStorage holds. -/
def initWatState (stored : Option StoredValue) : WatState :=
  { testState := .ready
    words := []
    currentWordIndex := 0
    timeLeft := 15
    currentResponse := ""
    allResponses := []
    sessionId := none
    isSaving := false
    error := none
    stored := stored }

/-- The WAT auto-save effect: whenever the test is running, mirror
`{ currentWordIndex, allResponses, timeLeft, words }` into sessionStorage. -/
def watAutoSave (s : WatState) : WatState :=
  if s.testState = .running then
    { s with stored := some (.valid
        { currentWordIndex := s.currentWordIndex
          allResponses := s.allResponses
          timeLeft := s.timeLeft
          words := s.words }) }
  else s

/-- `loadSavedProgress`: read the stored entry; on a parsed snapshot restore
the four persisted fields and report `true`; on a parse error remove the
entry and report `false`; on absence report `false`. -/
def loadSavedProgress (s : WatState) : WatState × Bool :=
  match s.stored with
  | some (.valid p) =>
      ({ s with words := p.words
                currentWordIndex := p.currentWordIndex
                allResponses := p.allResponses
                timeLeft := p.timeLeft }, true)
  | some .corrupt => ({ s with stored := none }, false)
  | none => (s, false)

/-- `clearSavedProgress`: remove the sessionStorage entry. -/
def clearSavedProgress (s : WatState) : WatState :=
  { s with stored := none }

/-- Trace of one run of the save-with-retries chain: the resulting state, how
many POSTs were issued, how many of them succeeded, the delays (ms) inserted
between consecutive attempts, and the request bodies sent, in order. -/
structure SaveTrace where
  state : WatState
  attempts : Nat
  successes : Nat
  delays : List Nat
  bodies : List (List WatResponse)
deriving Repr

/-- One attempt of WAT `saveSessionAndFinish`, plus up to `retriesLeft`
rescheduled attempts.  The source guards re-entry on `isSaving`, sets
`isSaving`/clears `error`, POSTs `{ responses: finalResponses }`; on success
it stores the returned id, moves to `finished` and clears the saved progress;
on failure it records the error and, while `retryCount < 2`
(i.e. `retriesLeft > 0` here), reschedules itself after 2000 ms.  The
`finally` block clears `isSaving` before any rescheduled attempt runs. -/
def watSaveLoop (client : SaveClient) (finalResponses : List WatResponse) :
    Nat → Nat → WatState → SaveTrace
  | retriesLeft, callIdx, s =>
    if s.isSaving then
      { state := s, attempts := 0, successes := 0, delays := [], bodies := [] }
    else
      let s1 := { s with isSaving := true, error := none }
      match client callIdx with
      | .success id =>
          { state := { s1 with sessionId := some id
                               testState := .finished
                               stored := none
                               isSaving := false }
            attempts := 1, successes := 1, delays := []
            bodies := [finalResponses] }
      | .failure =>
          let s2 := { s1 with error := some "Failed to save session"
                              isSaving := false }
          match retriesLeft with
          | 0 =>
              { state := s2, attempts := 1, successes := 0, delays := []
                bodies := [finalResponses] }
          | n + 1 =>
              let t := watSaveLoop client finalResponses n (callIdx + 1) s2
              { state := t.state
                attempts := t.attempts + 1
                successes := t.successes
                delays := 2000 :: t.delays
                bodies := finalResponses :: t.bodies }

/-- WAT `saveSessionAndFinish(finalResponses)`: the chain entered at
`retryCount = 0`, i.e. two retries left. -/
def watSaveSessionAndFinish (client : SaveClient)
    (finalResponses : List WatResponse) (s : WatState) : SaveTrace :=
  watSaveLoop client finalResponses 2 0 s

/-- WAT `handleWordComplete`, returning the save trace alongside the state:
build a response from the current word, the trimmed buffer and
`Math.max(0, 15 - timeLeft)` (which for natural `timeLeft` is the truncated
subtraction `15 - timeLeft`), append it, clear the buffer; on the last word
hand the new list to `saveSessionAndFinish`, otherwise advance the index and
reset the clock to 15. -/
def watHandleWordCompleteT (client : SaveClient) (s : WatState) :
    WatState × SaveTrace :=
  let newResponse : WatResponse :=
    { word := s.words.getD s.currentWordIndex ""
      response := jsTrim s.currentResponse
      timeSpent := 15 - s.timeLeft }
  let newResponses := s.allResponses ++ [newResponse]
  let s1 := { s with allResponses := newResponses, currentResponse := "" }
  if s.currentWordIndex = s.words.length - 1 then
    let t := watSaveSessionAndFinish client newResponses s1
    (t.state, t)
  else
    ({ s1 with currentWordIndex := s.currentWordIndex + 1, timeLeft := 15 },
      { state := s1, attempts := 0, successes := 0, delays := [], bodies := [] })

/-- WAT `handleWordComplete` followed by the auto-save effect. -/
def watAdvance (client : SaveClient) (s : WatState) : WatState :=
  watAutoSave (watHandleWordCompleteT client s).1

/-- One tick of the WAT interval timer: decrement, clamping at zero. -/
def watTimerTick (s : WatState) : WatState :=
  if s.timeLeft ≤ 1 then { s with timeLeft := 0 }
  else { s with timeLeft := s.timeLeft - 1 }

/-- The WAT auto-advance effect: when running with a word list loaded and
`timeLeft ≤ 0`, call `handleWordComplete` — with no condition whatsoever on
the content of the input buffer. -/
def watExpiryAdvance (client : SaveClient) (s : WatState) : WatState :=
  if s.testState = .running ∧ s.timeLeft = 0 ∧ s.words ≠ [] then
    watAdvance client s
  else s

/-- The WAT Ctrl+Enter shortcut: submit only while running and only when the
trimmed buffer is non-empty (JavaScript truthiness of `currentResponse.trim()`). -/
def watKeyCtrlEnter (client : SaveClient) (s : WatState) : WatState :=
  if s.testState = .running ∧ jsTrim s.currentResponse ≠ "" then
    watAdvance client s
  else s

/-- The WAT next/finish button: rendered on the running screen and disabled
unless the trimmed buffer is non-empty and no save is in flight. -/
def watButtonSubmit (client : SaveClient) (s : WatState) : WatState :=
  if s.testState = .running ∧ jsTrim s.currentResponse ≠ "" ∧ s.isSaving = false then
    watAdvance client s
  else s

/-- The WAT Escape shortcut / pause button: freeze the clock.  The auto-save
effect re-runs but its `testState === running` condition now fails. -/
def watPause (s : WatState) : WatState :=
  if s.testState = .running then { s with testState := .paused } else s

/-- WAT `resumeTimer`: Enter while paused restarts the clock. -/
def watResume (s : WatState) : WatState :=
  if s.testState = .paused then
    watAutoSave { s with testState := .running }
  else s

/-- Outcome of the prompt-source fetch as the WAT page discriminates it:
a network/HTTP failure, a payload whose `words` is not a non-empty array
(`!Array.isArray(data.words)` — modelled as `payload none`), or an array. -/
inductive FetchOutcome where
  | err
  | payload (words : Option (List String))
deriving DecidableEq, Repr

/-- WAT `startTest`: clear error and session id, try to load saved progress;
if found, either resume verbatim (the caller confirmed) or discard the entry;
on the fresh path reset the session fields and fetch a word list, rejecting
failures, non-arrays and empty arrays with a dismissible error while staying
`ready`; on success install the words and start running.  The auto-save
effect fires after any transition into `running`. -/
def watStartTest (confirmResume : Bool) (fetch : FetchOutcome) (s : WatState) :
    WatState :=
  let s0 := { s with error := none, sessionId := none }
  let (s1, hasSaved) := loadSavedProgress s0
  if hasSaved ∧ confirmResume then
    watAutoSave { s1 with testState := .running }
  else
    let s2 := if hasSaved then clearSavedProgress s1 else s1
    let s3 := { s2 with allResponses := []
                        currentWordIndex := 0
                        currentResponse := ""
                        timeLeft := 15
                        isSaving := false }
    match fetch with
    | .err => { s3 with error := some "Could not start the test: fetch failed" }
    | .payload none =>
        { s3 with error := some "Could not start the test: Invalid test data received" }
    | .payload (some ws) =>
        if ws.isEmpty then
          { s3 with error := some "Could not start the test: Invalid test data received" }
        else
          watAutoSave { s3 with words := ws, testState := .running }

/-- The WAT state immediately after a successful fresh start on word list
`ws`: the reset block, the installed words, `running`, and the auto-save
effect having fired. -/
def freshWatState (ws : List String) : WatState :=
  watStartTest false (.payload (some ws)) (initWatState none)

/-- One scripted advance of a WAT session: the user input buffer holds
`input.1` and the clock shows `input.2` when the advance fires (by button,
Ctrl+Enter or expiry — all of them run `handleWordComplete`). -/
def watStep (client : SaveClient) (input : String × Nat) (s : WatState) :
    WatState :=
  watAdvance client { s with currentResponse := input.1, timeLeft := input.2 }

/-- Run a list of scripted advances in order. -/
def watRun (client : SaveClient) (inputs : List (String × Nat)) (s : WatState) :
    WatState :=
  inputs.foldl (fun t i => watStep client i t) s

/-- One captured SRT response
(`{ situation: string, response: string, timeSpent: number }`). -/
structure SrtResponse where
  situation : String
  response : String
  timeSpent : Nat
deriving DecidableEq, Repr

/-- The persisted SRT snapshot (`interface TestProgress` of the SRT page):
`{ currentSituationIndex, allResponses, situations }` — no clock field and no
field for the in-progress input buffer. -/
structure SrtProgress where
  currentSituationIndex : Nat
  allResponses : List SrtResponse
  situations : List String
deriving DecidableEq, Repr

/-- What sessionStorage may hold under `srt-progress`. -/
inductive SrtStoredValue where
  | valid (p : SrtProgress)
  | corrupt
deriving DecidableEq, Repr

/-- The SRT page state.  `startTime` is the `Date.now()` value recorded when
the current situation became current; wall-clock instants are naturals
(milliseconds). -/
structure SrtState where
  testState : TestState
  situations : List String
  currentSituationIndex : Nat
  currentResponse : String
  allResponses : List SrtResponse
  sessionId : Option Nat
  isSaving : Bool
  error : Option String
  startTime : Nat
  stored : Option SrtStoredValue
deriving DecidableEq, Repr

/-- SRT page state at component mount. -/
def initSrtState (stored : Option SrtStoredValue) : SrtState :=
  { testState := .ready
    situations := []
    currentSituationIndex := 0
    currentResponse := ""
    allResponses := []
    sessionId := none
    isSaving := false
    error := none
    startTime := 0
    stored := stored }

/-- The SRT validity predicate `isResponseValid`:
at least 10 trimmed characters and at least 3 words. -/
def isResponseValid (response : String) : Prop :=
  (jsTrim response).length ≥ 10 ∧ jsWordCount response ≥ 3

instance (response : String) : Decidable (isResponseValid response) := by
  unfold isResponseValid; infer_instance

/-- The SRT auto-save effect: while running, mirror
`{ currentSituationIndex, allResponses, situations }` into sessionStorage. -/
def srtAutoSave (s : SrtState) : SrtState :=
  if s.testState = .running then
    { s with stored := some (.valid
        { currentSituationIndex := s.currentSituationIndex
          allResponses := s.allResponses
          situations := s.situations }) }
  else s

/-- SRT `loadSavedProgress`. -/
def srtLoadSavedProgress (s : SrtState) : SrtState × Bool :=
  match s.stored with
  | some (.valid p) =>
      ({ s with situations := p.situations
                currentSituationIndex := p.currentSituationIndex
                allResponses := p.allResponses }, true)
  | some .corrupt => ({ s with stored := none }, false)
  | none => (s, false)

/-- SRT `clearSavedProgress`. -/
def srtClearSavedProgress (s : SrtState) : SrtState :=
  { s with stored := none }

/-- Trace of the SRT save-with-retries chain (same shape as `SaveTrace`). -/
structure SrtSaveTrace where
  state : SrtState
  attempts : Nat
  successes : Nat
  delays : List Nat
  bodies : List (List SrtResponse)
deriving Repr

/-- SRT `saveSessionAndFinish` attempt chain; identical retry structure to
the WAT one (guard on `isSaving`, success stores the id, moves to `finished`
and clears the snapshot; failure records the error and reschedules after
2000 ms while retries remain). -/
def srtSaveLoop (client : SaveClient) (finalResponses : List SrtResponse) :
    Nat → Nat → SrtState → SrtSaveTrace
  | retriesLeft, callIdx, s =>
    if s.isSaving then
      { state := s, attempts := 0, successes := 0, delays := [], bodies := [] }
    else
      let s1 := { s with isSaving := true, error := none }
      match client callIdx with
      | .success id =>
          { state := { s1 with sessionId := some id
                               testState := .finished
                               stored := none
                               isSaving := false }
            attempts := 1, successes := 1, delays := []
            bodies := [finalResponses] }
      | .failure =>
          let s2 := { s1 with error := some "Failed to save session"
                              isSaving := false }
          match retriesLeft with
          | 0 =>
              { state := s2, attempts := 1, successes := 0, delays := []
                bodies := [finalResponses] }
          | n + 1 =>
              let t := srtSaveLoop client finalResponses n (callIdx + 1) s2
              { state := t.state
                attempts := t.attempts + 1
                successes := t.successes
                delays := 2000 :: t.delays
                bodies := finalResponses :: t.bodies }

/-- SRT `saveSessionAndFinish(finalResponses)` entered at `retryCount = 0`. -/
def srtSaveSessionAndFinish (client : SaveClient)
    (finalResponses : List SrtResponse) (s : SrtState) : SrtSaveTrace :=
  srtSaveLoop client finalResponses 2 0 s

/-- SRT `handleNext` with its save trace: a no-op while a save is in flight
or while the trimmed buffer is empty; otherwise build a response whose
`timeSpent` is `Math.max(0, Math.floor((Date.now() - startTime) / 1000))`
(for natural instants, the truncated `(now - startTime) / 1000`), append it,
and either hand the new list to `saveSessionAndFinish` (last situation — the
buffer is not cleared on this branch) or clear the buffer, advance the index
and restart the wall clock.  The auto-save effect fires afterwards. -/
def srtHandleNextT (client : SaveClient) (now : Nat) (s : SrtState) :
    SrtState × SrtSaveTrace :=
  if s.isSaving = true ∨ jsTrim s.currentResponse = "" then
    (s, { state := s, attempts := 0, successes := 0, delays := [], bodies := [] })
  else
    let newResponse : SrtResponse :=
      { situation := s.situations.getD s.currentSituationIndex ""
        response := jsTrim s.currentResponse
        timeSpent := (now - s.startTime) / 1000 }
    let newResponses := s.allResponses ++ [newResponse]
    if s.currentSituationIndex = s.situations.length - 1 then
      let t := srtSaveSessionAndFinish client newResponses
        { s with allResponses := newResponses }
      (srtAutoSave t.state, t)
    else
      (srtAutoSave { s with allResponses := newResponses
                            currentResponse := ""
                            currentSituationIndex := s.currentSituationIndex + 1
                            startTime := now },
        { state := s, attempts := 0, successes := 0, delays := [], bodies := [] })

/-- SRT `handleNext` (state part). -/
def srtHandleNext (client : SaveClient) (now : Nat) (s : SrtState) : SrtState :=
  (srtHandleNextT client now s).1

/-- The SRT Ctrl+Enter shortcut: while running, a non-empty trimmed buffer is
the only gate before `handleNext` — the `isResponseValid` minimum is not
checked on this path. -/
def srtKeyCtrlEnter (client : SaveClient) (now : Nat) (s : SrtState) : SrtState :=
  if s.testState = .running ∧ jsTrim s.currentResponse ≠ "" then
    srtHandleNext client now s
  else s

/-- The SRT next/finish button: rendered on the running screen and disabled
unless `isResponseValid` holds and no save is in flight. -/
def srtButtonSubmit (client : SaveClient) (now : Nat) (s : SrtState) : SrtState :=
  if s.testState = .running ∧ isResponseValid s.currentResponse ∧ s.isSaving = false then
    srtHandleNext client now s
  else s

/-- SRT `startTest`: same structure as the WAT start path (resume-or-discard
on a loadable snapshot, then fresh fetch of `data.situations` with the same
`!Array.isArray || length === 0` validation).  On the resume path the effect
that records `startTime` fires as the state becomes `running`. -/
def srtStartTest (confirmResume : Bool) (fetch : FetchOutcome) (now : Nat)
    (s : SrtState) : SrtState :=
  let s0 := { s with error := none, sessionId := none }
  let (s1, hasSaved) := srtLoadSavedProgress s0
  if hasSaved ∧ confirmResume then
    srtAutoSave { s1 with testState := .running, startTime := now }
  else
    let s2 := if hasSaved then srtClearSavedProgress s1 else s1
    let s3 := { s2 with allResponses := []
                        currentSituationIndex := 0
                        currentResponse := ""
                        isSaving := false }
    match fetch with
    | .err => { s3 with error := some "Could not start the test: fetch failed" }
    | .payload none =>
        { s3 with error := some "Could not start the test: Invalid test data received" }
    | .payload (some ws) =>
        if ws.isEmpty then
          { s3 with error := some "Could not start the test: Invalid test data received" }
        else
          srtAutoSave { s3 with situations := ws, testState := .running, startTime := now }

/-- The legacy WAT page state (`src/src/app/wat/page.tsx`): no persistence,
no error banner (failures use `alert`), responses without timing data. -/
structure LegacyWatState where
  testState : TestState
  words : List String
  currentWordIndex : Nat
  timeLeft : Nat
  currentResponse : String
  allResponses : List (String × String)
  sessionId : Option Nat
deriving DecidableEq, Repr

/-- Legacy WAT page state at mount. -/
def initLegacyWatState : LegacyWatState :=
  { testState := .ready
    words := []
    currentWordIndex := 0
    timeLeft := 15
    currentResponse := ""
    allResponses := []
    sessionId := none }

/-- Prompt-source outcome as the legacy WAT page discriminates it: this
variant performs no `response.ok` check and no shape validation, so the only
failure it can observe is a rejected `fetch`/`json()`; any parsed payload is
installed verbatim via `setWords(data.words)`. -/
inductive LegacyFetchOutcome where
  | err
  | ok (words : List String)
deriving DecidableEq, Repr

/-- Legacy WAT `startTest`: reset the session fields and — before the fetch
resolves — enter `running`; on a rejected fetch, alert and fall back to
`ready`; otherwise install whatever `data.words` holds, even an empty list,
and stay `running`. -/
def legacyStartTest (fetch : LegacyFetchOutcome) (s : LegacyWatState) :
    LegacyWatState :=
  let s1 := { s with sessionId := none
                     allResponses := []
                     currentWordIndex := 0
                     currentResponse := ""
                     timeLeft := 15
                     testState := .running }
  match fetch with
  | .err => { s1 with testState := .ready }
  | .ok ws => { s1 with words := ws }

/-- The snapshot the WAT auto-save effect writes for a state. -/
def watSnapshot (s : WatState) : TestProgress :=
  { currentWordIndex := s.currentWordIndex
    allResponses := s.allResponses
    timeLeft := s.timeLeft
    words := s.words }

/-- Agreement on the four fields that determine the captured responses of
the remaining advances: the word list, the position, the responses so far,
and the in-flight-save flag. -/
def watAgree (a b : WatState) : Prop :=
  a.words = b.words ∧ a.currentWordIndex = b.currentWordIndex ∧
    a.allResponses = b.allResponses ∧ a.isSaving = b.isSaving

/-- A Submission Client that fails every call. -/
def alwaysFailClient : SaveClient := fun _ => .failure

/-- A Submission Client that succeeds on every call with id 7. -/
def okClient : SaveClient := fun _ => .success 7

/-- A Submission Client that fails its first two calls and then succeeds
with id 42. -/
def failTwiceClient : SaveClient := fun i => if i < 2 then .failure else .success 42

/-- A running SRT session on two situations whose buffer "hi there" has
only 2 words and 8 trimmed characters — failing both minimum constraints
while having a non-empty trimmed value. -/
def c3state : SrtState :=
  { testState := .running
    situations := ["A", "B"]
    currentSituationIndex := 0
    currentResponse := "hi there"
    allResponses := []
    sessionId := none
    isSaving := false
    error := none
    startTime := 0
    stored := none }

/-- The spec scenario mid-state: prompts `["Fire", "River"]`, "Fire truck"
submitted at t = 3 s, the clock has reached zero unattended on "River". -/
def c8state : WatState :=
  { freshWatState ["Fire", "River"] with
      currentWordIndex := 1
      allResponses := [{ word := "Fire", response := "Fire truck", timeSpent := 3 }]
      currentResponse := ""
      timeLeft := 0 }

-- ### Helper lemmas

theorem watSaveLoop_state (c : SaveClient) (b : List WatResponse) :
    ∀ (n i : Nat) (s : WatState),
      (watSaveLoop c b n i s).state.words = s.words ∧
      (watSaveLoop c b n i s).state.currentWordIndex = s.currentWordIndex ∧
      (watSaveLoop c b n i s).state.timeLeft = s.timeLeft ∧
      (watSaveLoop c b n i s).state.allResponses = s.allResponses ∧
      (watSaveLoop c b n i s).state.currentResponse = s.currentResponse ∧
      (watSaveLoop c b n i s).state.isSaving = s.isSaving := by
  intro n
  induction n with
  | zero =>
      intro i s
      rw [watSaveLoop]
      rcases hIs : s.isSaving with _ | _ <;> rcases hC : c i with id | _ <;>
        simp [hIs, hC]
  | succ m ih =>
      intro i s
      rw [watSaveLoop]
      rcases hIs : s.isSaving with _ | _ <;> rcases hC : c i with id | _ <;>
        simp [hIs, hC]
      have h := ih (i + 1)
        { s with isSaving := false, error := some "Failed to save session" }
      simpa using h

theorem watAutoSave_fields (s : WatState) :
    (watAutoSave s).testState = s.testState ∧
    (watAutoSave s).words = s.words ∧
    (watAutoSave s).currentWordIndex = s.currentWordIndex ∧
    (watAutoSave s).timeLeft = s.timeLeft ∧
    (watAutoSave s).currentResponse = s.currentResponse ∧
    (watAutoSave s).allResponses = s.allResponses ∧
    (watAutoSave s).isSaving = s.isSaving := by
  unfold watAutoSave
  split <;> simp


theorem watStep_eq (c : SaveClient) (inp : String × Nat) (s : WatState) :
    (watStep c inp s).words = s.words ∧
    (watStep c inp s).isSaving = s.isSaving ∧
    (watStep c inp s).allResponses = s.allResponses ++
      [{ word := s.words.getD s.currentWordIndex ""
         response := jsTrim inp.1
         timeSpent := 15 - inp.2 }] ∧
    (watStep c inp s).currentWordIndex =
      (if s.currentWordIndex = s.words.length - 1 then s.currentWordIndex
       else s.currentWordIndex + 1) ∧
    (s.currentWordIndex ≠ s.words.length - 1 →
      (watStep c inp s).testState = s.testState ∧
      (watStep c inp s).timeLeft = 15) := by
  unfold watStep watAdvance watHandleWordCompleteT watSaveSessionAndFinish
  split
  next hb =>
    simp only at hb
    refine ⟨?_, ?_, ?_, ?_, fun h => absurd hb h⟩
    · rw [(watAutoSave_fields _).2.1]
      exact (watSaveLoop_state c _ 2 0 _).1
    · rw [(watAutoSave_fields _).2.2.2.2.2.2]
      exact (watSaveLoop_state c _ 2 0 _).2.2.2.2.2
    · rw [(watAutoSave_fields _).2.2.2.2.2.1]
      exact (watSaveLoop_state c _ 2 0 _).2.2.2.1
    · rw [(watAutoSave_fields _).2.2.1]
      exact (watSaveLoop_state c _ 2 0 _).2.1
  next hb =>
    simp only at hb
    simp only [watAutoSave]
    split <;> simp [hb]

theorem watRun_nil (c : SaveClient) (s : WatState) : watRun c [] s = s := rfl

theorem watRun_cons (c : SaveClient) (i : String × Nat) (l : List (String × Nat))
    (s : WatState) : watRun c (i :: l) s = watRun c l (watStep c i s) := rfl

theorem watRun_append (c : SaveClient) (l₁ l₂ : List (String × Nat)) (s : WatState) :
    watRun c (l₁ ++ l₂) s = watRun c l₂ (watRun c l₁ s) := by
  unfold watRun
  exact List.foldl_append _ _ _ _

theorem watStep_agree (c : SaveClient) (i : String × Nat) {a b : WatState}
    (h : watAgree a b) : watAgree (watStep c i a) (watStep c i b) := by
  obtain ⟨hw, hi, ha, hs⟩ := h
  obtain ⟨aw, as', aa, ai, -⟩ := watStep_eq c i a
  obtain ⟨bw, bs, ba, bi, -⟩ := watStep_eq c i b
  exact ⟨by rw [aw, bw, hw], by rw [ai, bi, hw, hi], by rw [aa, ba, hw, hi, ha],
    by rw [as', bs, hs]⟩

theorem watRun_agree (c : SaveClient) (l : List (String × Nat)) :
    ∀ {a b : WatState}, watAgree a b → watAgree (watRun c l a) (watRun c l b) := by
  induction l with
  | nil => intro a b h; exact h
  | cons i t ih =>
      intro a b h
      rw [watRun_cons, watRun_cons]
      exact ih (watStep_agree c i h)

theorem watRun_isSaving (c : SaveClient) (l : List (String × Nat)) :
    ∀ s : WatState, (watRun c l s).isSaving = s.isSaving := by
  induction l with
  | nil => intro s; rfl
  | cons i t ih =>
      intro s
      rw [watRun_cons, ih, (watStep_eq c i s).2.1]

theorem watRun_words (c : SaveClient) (l : List (String × Nat)) :
    ∀ s : WatState, (watRun c l s).words = s.words := by
  induction l with
  | nil => intro s; rfl
  | cons i t ih =>
      intro s
      rw [watRun_cons, ih, (watStep_eq c i s).1]

theorem freshWatState_eq (ws : List String) :
    freshWatState ws =
      (if ws.isEmpty then
        { initWatState none with
            error := some "Could not start the test: Invalid test data received" }
      else
        { initWatState none with
            words := ws
            testState := .running
            stored := some (.valid
              { currentWordIndex := 0, allResponses := [], timeLeft := 15, words := ws }) }) := by
  unfold freshWatState watStartTest loadSavedProgress initWatState watAutoSave
  split <;> simp_all

theorem watRun_running (c : SaveClient) (l : List (String × Nat)) :
    ∀ s : WatState, s.testState = .running →
      s.allResponses.length = s.currentWordIndex →
      s.currentWordIndex + l.length < s.words.length →
      (watRun c l s).testState = .running ∧
      (watRun c l s).currentWordIndex = s.currentWordIndex + l.length ∧
      (watRun c l s).allResponses.length = s.currentWordIndex + l.length := by
  induction l with
  | nil =>
      intro s h1 h2 h3
      exact ⟨h1, by simp [watRun_nil], by simp [watRun_nil, h2]⟩
  | cons i t ih =>
      intro s h1 h2 h3
      obtain ⟨hw, hs, ha, hi, himp⟩ := watStep_eq c i s
      simp only [List.length_cons] at h3
      have hne : s.currentWordIndex ≠ s.words.length - 1 := by omega
      have hidx : (watStep c i s).currentWordIndex = s.currentWordIndex + 1 := by
        rw [hi, if_neg hne]
      have hlen : (watStep c i s).allResponses.length = s.currentWordIndex + 1 := by
        rw [ha]; simp [h2]
      rw [watRun_cons]
      obtain ⟨r1, r2, r3⟩ := ih (watStep c i s) (by rw [(himp hne).1, h1])
        (by rw [hlen, hidx]) (by rw [hidx, hw]; omega)
      refine ⟨r1, by rw [r2, hidx]; simp only [List.length_cons]; omega,
        by rw [r3, hidx]; simp only [List.length_cons]; omega⟩

-- ### Claim theorems

/-- Claim C1, counterexample: in a one-word session that is still literally
`running` (the save failed), the completed final advance appends a response
without advancing the index, so `responses.length` is `1` while
`currentIndex` is `0`. -/
theorem spec_c1_counterexample :
    (watStep alwaysFailClient ("hello", 10) (freshWatState ["Fire"])).testState =
        TestState.running ∧
    (watStep alwaysFailClient ("hello", 10) (freshWatState ["Fire"])).allResponses.length ≠
      (watStep alwaysFailClient ("hello", 10) (freshWatState ["Fire"])).currentWordIndex := by
  decide

/-- Claim C1 (amended): after each completed non-final advance,
`responses.length = currentIndex` holds (both equal the number of advances
so far and the session is still running); the final advance appends a
response without advancing the index, leaving
`responses.length = prompts.length = currentIndex + 1`. -/
theorem spec_c1_invariant (c : SaveClient) (ws : List String)
    (l : List (String × Nat)) (i : String × Nat)
    (h1 : ws ≠ []) (h2 : l.length < ws.length) :
    ((watRun c l (freshWatState ws)).allResponses.length = l.length ∧
     (watRun c l (freshWatState ws)).currentWordIndex = l.length ∧
     (watRun c l (freshWatState ws)).testState = .running) ∧
    (l.length = ws.length - 1 →
      (watStep c i (watRun c l (freshWatState ws))).allResponses.length = ws.length ∧
      (watStep c i (watRun c l (freshWatState ws))).currentWordIndex = ws.length - 1) := by
  have hfe := freshWatState_eq ws
  rw [List.isEmpty_eq_false.mpr h1] at hfe
  simp only [if_false, Bool.false_eq_true, reduceIte, initWatState] at hfe
  have hrun := watRun_running c l (freshWatState ws)
    (by rw [hfe]) (by rw [hfe]; rfl) (by rw [hfe]; simpa using h2)
  have h0 : (freshWatState ws).currentWordIndex = 0 := by rw [hfe]
  rw [h0] at hrun
  simp only [zero_add] at hrun
  obtain ⟨r1, r2, r3⟩ := hrun
  refine ⟨⟨r3, r2, r1⟩, ?_⟩
  intro hl
  have hw : (watRun c l (freshWatState ws)).words = ws := by
    rw [watRun_words, hfe]
  obtain ⟨-, -, ha, hi, -⟩ := watStep_eq c i (watRun c l (freshWatState ws))
  have hidx : (watRun c l (freshWatState ws)).currentWordIndex = ws.length - 1 := by
    rw [r2, hl]
  constructor
  · rw [ha]
    simp only [List.length_append, List.length_cons, List.length_nil]
    rw [r3]
    have : ws.length ≠ 0 := by simpa using (List.length_pos.mpr h1).ne'
    omega
  · rw [hi, hw, if_pos (by rw [hidx]), hidx]

/-- Claim C6: persisting the auto-saved snapshot at any interruption point,
resuming from it through `startTest` (which restores `currentIndex`,
`responses`, `timeLeft` and `words` verbatim and re-enters `running`), and
completing the remaining scripted advances yields the same final response
sequence as running the session uninterrupted on the same inputs. -/
theorem spec_resume_equiv (c : SaveClient) (ws : List String) (f : FetchOutcome)
    (l₁ l₂ : List (String × Nat)) :
    (watRun c l₂ (watStartTest true f (initWatState (some (.valid
        (watSnapshot (watRun c l₁ (freshWatState ws)))))))).allResponses =
    (watRun c (l₁ ++ l₂) (freshWatState ws)).allResponses := by
  rw [watRun_append]
  have hIs : (watRun c l₁ (freshWatState ws)).isSaving = false := by
    rw [watRun_isSaving, freshWatState_eq]
    split <;> rfl
  apply (watRun_agree c l₂ ?_).2.2.1
  unfold watStartTest loadSavedProgress initWatState watAutoSave watSnapshot watAgree
  simp [hIs]

theorem spec_c1_invariant_witness :
    (watRun alwaysFailClient [("Fire truck", 12)]
        (freshWatState ["Fire", "River"])).allResponses.length = 1 :=
  (spec_c1_invariant alwaysFailClient ["Fire", "River"] [("Fire truck", 12)] ("", 0)
    (by decide) (by decide)).1.1

/-- Claim C2: against a Submission Client that fails every call, the final
advance issues exactly 3 save attempts (1 original + 2 retries), each
scheduled 2000 ms after the previous one, every attempt posts the same full
response list, the accumulated responses survive untouched, the session does
not finish, the saved snapshot is not cleared, and `isSaving` ends `false`,
so a manual retry (a save call against a now-working client) still reaches
`Finished`. -/
theorem spec_save_retries (client : SaveClient) (s : WatState)
    (hc : ∀ i, client i = .failure) (hs : s.isSaving = false)
    (hlast : s.currentWordIndex = s.words.length - 1) :
    (watHandleWordCompleteT client s).2.attempts = 3 ∧
    (watHandleWordCompleteT client s).2.successes = 0 ∧
    (watHandleWordCompleteT client s).2.delays = [2000, 2000] ∧
    (watHandleWordCompleteT client s).2.bodies =
      [(watHandleWordCompleteT client s).1.allResponses,
       (watHandleWordCompleteT client s).1.allResponses,
       (watHandleWordCompleteT client s).1.allResponses] ∧
    (watHandleWordCompleteT client s).1.allResponses =
      s.allResponses ++ [{ word := s.words.getD s.currentWordIndex ""
                           response := jsTrim s.currentResponse
                           timeSpent := 15 - s.timeLeft }] ∧
    (watHandleWordCompleteT client s).1.testState = s.testState ∧
    (watHandleWordCompleteT client s).1.isSaving = false ∧
    (watHandleWordCompleteT client s).1.stored = s.stored ∧
    (∀ id : Nat,
      (watSaveSessionAndFinish (fun _ => .success id)
          (watHandleWordCompleteT client s).1.allResponses
          (watHandleWordCompleteT client s).1).state.testState = .finished ∧
      (watSaveSessionAndFinish (fun _ => .success id)
          (watHandleWordCompleteT client s).1.allResponses
          (watHandleWordCompleteT client s).1).state.sessionId = some id) := by
  simp [watHandleWordCompleteT, watSaveSessionAndFinish, watSaveLoop, hc, hs, hlast]

theorem spec_save_retries_witness :
    (watHandleWordCompleteT alwaysFailClient
        { freshWatState ["Fire"] with currentResponse := "Fire truck", timeLeft := 12 }).2.attempts = 3 :=
  (spec_save_retries alwaysFailClient _ (fun _ => rfl) (by decide) (by decide)).1

/-- Claim C4: against a Submission Client that fails its first two calls and
succeeds on the third, the final advance makes 3 attempts of which exactly
one succeeds, reaches `Finished` carrying the server-assigned id, and clears
the Progress Store entry. -/
theorem spec_fail_twice_then_finish (client : SaveClient) (s : WatState) (id : Nat)
    (hc0 : client 0 = .failure) (hc1 : client 1 = .failure)
    (hc2 : client 2 = .success id)
    (hs : s.isSaving = false) (hlast : s.currentWordIndex = s.words.length - 1) :
    (watHandleWordCompleteT client s).2.attempts = 3 ∧
    (watHandleWordCompleteT client s).2.successes = 1 ∧
    (watHandleWordCompleteT client s).1.testState = .finished ∧
    (watHandleWordCompleteT client s).1.sessionId = some id ∧
    (watHandleWordCompleteT client s).1.stored = none := by
  simp [watHandleWordCompleteT, watSaveSessionAndFinish, watSaveLoop, hc0, hc1, hc2, hs, hlast]

theorem spec_fail_twice_then_finish_witness :
    (watHandleWordCompleteT failTwiceClient
        { freshWatState ["Fire"] with currentResponse := "Fire truck", timeLeft := 12 }).1.testState =
      TestState.finished :=
  (spec_fail_twice_then_finish failTwiceClient _ 42 rfl rfl rfl (by decide) (by decide)).2.2.1

/-- Claim C5: a stored value that does not parse is treated exactly like an
absent snapshot — the load reports absence and removes the corrupt entry,
and the whole start path proceeds identically to a start with no snapshot
(fresh-start path, same resulting state for every fetch outcome). -/
theorem spec_corrupt_as_absent (s : WatState) (confirm : Bool) (f : FetchOutcome)
    (h : s.stored = some .corrupt) :
    (loadSavedProgress s).2 = false ∧
    (loadSavedProgress s).1 = { s with stored := none } ∧
    loadSavedProgress { s with stored := none } = ({ s with stored := none }, false) ∧
    watStartTest confirm f s = watStartTest confirm f { s with stored := none } := by
  unfold watStartTest loadSavedProgress
  simp [h]

theorem spec_corrupt_as_absent_witness :
    watStartTest true (.payload (some ["Fire"])) (initWatState (some .corrupt)) =
      watStartTest true (.payload (some ["Fire"])) { initWatState (some .corrupt) with stored := none } :=
  (spec_corrupt_as_absent (initWatState (some .corrupt)) true (.payload (some ["Fire"])) rfl).2.2.2

theorem srtSaveLoop_state (c : SaveClient) (b : List SrtResponse) :
    ∀ (n i : Nat) (s : SrtState),
      (srtSaveLoop c b n i s).state.situations = s.situations ∧
      (srtSaveLoop c b n i s).state.currentSituationIndex = s.currentSituationIndex ∧
      (srtSaveLoop c b n i s).state.startTime = s.startTime ∧
      (srtSaveLoop c b n i s).state.allResponses = s.allResponses ∧
      (srtSaveLoop c b n i s).state.currentResponse = s.currentResponse ∧
      (srtSaveLoop c b n i s).state.isSaving = s.isSaving := by
  intro n
  induction n with
  | zero =>
      intro i s
      rw [srtSaveLoop]
      rcases hIs : s.isSaving with _ | _ <;> rcases hC : c i with id | _ <;>
        simp [hIs, hC]
  | succ m ih =>
      intro i s
      rw [srtSaveLoop]
      rcases hIs : s.isSaving with _ | _ <;> rcases hC : c i with id | _ <;>
        simp [hIs, hC]
      have h := ih (i + 1)
        { s with isSaving := false, error := some "Failed to save session" }
      simpa using h

theorem srtAutoSave_fields (s : SrtState) :
    (srtAutoSave s).testState = s.testState ∧
    (srtAutoSave s).situations = s.situations ∧
    (srtAutoSave s).currentSituationIndex = s.currentSituationIndex ∧
    (srtAutoSave s).startTime = s.startTime ∧
    (srtAutoSave s).currentResponse = s.currentResponse ∧
    (srtAutoSave s).allResponses = s.allResponses ∧
    (srtAutoSave s).isSaving = s.isSaving := by
  unfold srtAutoSave
  split <;> simp

/-- Claim C7: the WAT advance (timed, budget 15) captures
`timeSpent = max 0 (budget − timeLeft)`, and the SRT advance (untimed)
captures `timeSpent = max 0 (floor((now − startTime) / 1000))`, the
whole-second wall-clock delta since the situation became current,
both floored at zero. -/
theorem spec_time_spent (c : SaveClient) (s : WatState) (now : Nat) (t : SrtState)
    (hsav : t.isSaving = false) (hne : jsTrim t.currentResponse ≠ "") :
    ((watHandleWordCompleteT c s).1.allResponses =
        s.allResponses ++ [{ word := s.words.getD s.currentWordIndex ""
                             response := jsTrim s.currentResponse
                             timeSpent := 15 - s.timeLeft }] ∧
      ((15 - s.timeLeft : Nat) : Int) = max 0 (15 - (s.timeLeft : Int))) ∧
    ((srtHandleNext c now t).allResponses =
        t.allResponses ++ [{ situation := t.situations.getD t.currentSituationIndex ""
                             response := jsTrim t.currentResponse
                             timeSpent := (now - t.startTime) / 1000 }] ∧
      (((now - t.startTime) / 1000 : Nat) : Int) =
        max 0 (((now : Int) - t.startTime) / 1000)) := by
  refine ⟨⟨?_, by omega⟩, ⟨?_, by omega⟩⟩
  · unfold watHandleWordCompleteT
    split
    next hb => exact (watSaveLoop_state c _ 2 0 _).2.2.2.1
    next hb => simp
  · unfold srtHandleNext srtHandleNextT
    rw [if_neg (by simp [hsav, hne])]
    split
    next hb =>
      rw [(srtAutoSave_fields _).2.2.2.2.2.1]
      exact (srtSaveLoop_state c _ 2 0 _).2.2.2.1
    next hb =>
      rw [(srtAutoSave_fields _).2.2.2.2.2.1]

theorem spec_time_spent_witness :
    (srtHandleNext alwaysFailClient 5500 c3state).allResponses =
      c3state.allResponses ++
        [{ situation := c3state.situations.getD c3state.currentSituationIndex ""
           response := jsTrim c3state.currentResponse
           timeSpent := (5500 - c3state.startTime) / 1000 }] :=
  (spec_time_spent alwaysFailClient (freshWatState ["Fire"]) 5500 c3state
    (by decide) (by decide)).2.1

/-- Claim C8: when the clock reaches zero the Controller forces an advance
even on an empty buffer, appending a Response with empty text and
`timeSpent = 15`, while the explicit submit paths (Ctrl+Enter and the
button) refuse an empty buffer; on the last prompt this expiry-driven
advance yields one Response per prompt and, when the save succeeds, moves
the session to `finished`. -/
theorem spec_expiry_forces_advance (c : SaveClient) (s : WatState)
    (hrun : s.testState = .running) (ht : s.timeLeft = 0) (hw : s.words ≠ [])
    (hempty : jsTrim s.currentResponse = "") :
    (watExpiryAdvance c s).allResponses =
      s.allResponses ++ [{ word := s.words.getD s.currentWordIndex ""
                           response := ""
                           timeSpent := 15 }] ∧
    watKeyCtrlEnter c s = s ∧
    watButtonSubmit c s = s ∧
    (s.currentWordIndex = s.words.length - 1 →
      s.allResponses.length = s.currentWordIndex →
      (watExpiryAdvance c s).allResponses.length = s.words.length ∧
      (∀ id : Nat, s.isSaving = false →
        (watExpiryAdvance (fun _ => .success id) s).testState = .finished)) := by
  have hadv : ∀ c' : SaveClient, (watExpiryAdvance c' s).allResponses =
      s.allResponses ++ [{ word := s.words.getD s.currentWordIndex ""
                           response := ""
                           timeSpent := 15 }] := by
    intro c'
    unfold watExpiryAdvance
    rw [if_pos ⟨hrun, ht, hw⟩]
    have h : (watAdvance c' s).allResponses =
        s.allResponses ++ [{ word := s.words.getD s.currentWordIndex ""
                             response := jsTrim s.currentResponse
                             timeSpent := 15 - s.timeLeft }] :=
      (watStep_eq c' (s.currentResponse, s.timeLeft) s).2.2.1
    rw [h, hempty, ht]
  refine ⟨hadv c, ?_, ?_, ?_⟩
  · unfold watKeyCtrlEnter
    rw [if_neg (by simp [hempty])]
  · unfold watButtonSubmit
    rw [if_neg (by simp [hempty])]
  · intro hlast hinv
    have hlen : s.words.length ≠ 0 := by simpa using (List.length_pos.mpr hw).ne'
    constructor
    · rw [hadv c]
      simp only [List.length_append, List.length_cons, List.length_nil]
      omega
    · intro id hsav
      unfold watExpiryAdvance
      rw [if_pos ⟨hrun, ht, hw⟩]
      unfold watAdvance watHandleWordCompleteT
      rw [if_pos hlast]
      simp [watSaveSessionAndFinish, watSaveLoop, hsav, watAutoSave]

theorem spec_expiry_forces_advance_witness :
    (watExpiryAdvance alwaysFailClient c8state).allResponses =
      c8state.allResponses ++ [{ word := c8state.words.getD c8state.currentWordIndex ""
                                 response := ""
                                 timeSpent := 15 }] :=
  (spec_expiry_forces_advance alwaysFailClient c8state (by decide) (by decide)
    (by decide) (by decide)).1

/-- Claim C3, counterexample: in a running untimed session the buffer
"hi there" fails both minimum constraints (2 words, 8 trimmed characters),
yet the Ctrl+Enter submit path appends it and mutates the state. -/
theorem spec_c3_counterexample :
    ¬ isResponseValid c3state.currentResponse ∧
    c3state.testState = TestState.running ∧
    srtKeyCtrlEnter alwaysFailClient 0 c3state ≠ c3state ∧
    (srtKeyCtrlEnter alwaysFailClient 0 c3state).allResponses.length = 1 := by
  decide

/-- Claim C3 (amended): the button submit path is a no-op whenever the
buffer fails the minimum constraints, and every submit path (including
`handleNext` itself and Ctrl+Enter) is a no-op on a buffer whose trimmed
value is empty; but a non-empty trimmed buffer below the minima can still
be submitted through Ctrl+Enter. -/
theorem spec_invalid_submit_noop (c : SaveClient) (now : Nat) (t : SrtState) :
    (¬ isResponseValid t.currentResponse → srtButtonSubmit c now t = t) ∧
    (jsTrim t.currentResponse = "" →
      srtHandleNext c now t = t ∧ srtKeyCtrlEnter c now t = t) := by
  constructor
  · intro h
    unfold srtButtonSubmit
    rw [if_neg (by simp [h])]
  · intro h
    have hn : srtHandleNext c now t = t := by
      unfold srtHandleNext srtHandleNextT
      rw [if_pos (Or.inr h)]
    refine ⟨hn, ?_⟩
    unfold srtKeyCtrlEnter
    split
    · exact hn
    · rfl

theorem spec_invalid_submit_noop_witness :
    srtButtonSubmit alwaysFailClient 0 c3state = c3state :=
  (spec_invalid_submit_noop alwaysFailClient 0 c3state).1 (by decide)

/-- Claim C9, counterexample: the legacy WAT variant enters `running` before
the fetch resolves and performs no payload validation, so a well-formed
response carrying an empty word list leaves the session in `running` with no
prompts and no error surfaced. -/
theorem spec_c9_counterexample :
    (legacyStartTest (.ok []) initLegacyWatState).testState = TestState.running ∧
    (legacyStartTest (.ok []) initLegacyWatState).words = [] := by
  decide

/-- Claim C9 (amended): in the WAT page with persistence and in the SRT page,
every prompt-source outcome that is unreachable, of invalid shape, or empty
leaves the session in `Ready` with a dismissible error and no prompt
sequence installed; the legacy WAT variant instead enters `Running`
optimistically, returns to `Ready` only on a rejected fetch, and accepts an
empty payload without surfacing an error. -/
theorem spec_fetch_failure_stays_ready (s : WatState) (t : SrtState)
    (f : FetchOutcome) (confirm : Bool) (now : Nat)
    (hws : s.stored = none) (hs : s.testState = .ready)
    (hts : t.stored = none) (ht : t.testState = .ready)
    (hf : f = .err ∨ f = .payload none ∨ f = .payload (some [])) :
    (watStartTest confirm f s).testState = .ready ∧
    (watStartTest confirm f s).error ≠ none ∧
    (watStartTest confirm f s).words = s.words ∧
    (srtStartTest confirm f now t).testState = .ready ∧
    (srtStartTest confirm f now t).error ≠ none ∧
    (srtStartTest confirm f now t).situations = t.situations := by
  rcases hf with rfl | rfl | rfl <;>
    simp [watStartTest, srtStartTest, loadSavedProgress, srtLoadSavedProgress,
      hws, hts, hs, ht]

theorem spec_fetch_failure_stays_ready_witness :
    (watStartTest false .err (initWatState none)).testState = TestState.ready :=
  (spec_fetch_failure_stays_ready (initWatState none) (initSrtState none) .err
    false 0 rfl rfl rfl rfl (Or.inl rfl)).1

/-- Claim C10: the persisted snapshot never carries the in-progress input
buffer — loading a snapshot leaves the buffer untouched, two states
differing only in the buffer persist identical snapshots, and every start
from a freshly mounted page (resume included) begins with an empty buffer. -/
theorem spec_snapshot_excludes_buffer :
    (∀ s : WatState, (loadSavedProgress s).1.currentResponse = s.currentResponse) ∧
    (∀ (s : WatState) (x : String),
      (watAutoSave { s with currentResponse := x }).stored = (watAutoSave s).stored) ∧
    (∀ (st : Option StoredValue) (confirm : Bool) (f : FetchOutcome),
      (watStartTest confirm f (initWatState st)).currentResponse = "") := by
  refine ⟨?_, ?_, ?_⟩
  · intro s
    unfold loadSavedProgress
    rcases h : s.stored with - | v
    · simp
    · cases v <;> simp
  · intro s x
    unfold watAutoSave
    simp only
    split <;> rfl
  · intro st confirm f
    rcases st with - | p | - <;> cases confirm <;>
      rcases f with - | - | ws <;>
      (try rcases ws with - | ⟨w, t⟩) <;>
      simp [watStartTest, loadSavedProgress, initWatState, watAutoSave,
        clearSavedProgress]
